import Mathlib

/-!
Shallow embedding of the StockaDoodle inventory server's product/category
CRUD core (`src/api_server/routes/products.py`, `src/api_server/routes/category.py`,
`src/api_server/utils/helpers.py`), together with theorems checking the
specification's claims about it.

Request bodies are Python dictionaries holding dynamically typed values;
we model the values that can appear in a parsed JSON or form body that the
routes inspect (`None`/JSON null, integers, strings) and keep the routes'
control flow, truthiness tests and coercions exactly as written.
-/

namespace StockaDoodle

/-- A dynamically typed Python value as it appears in a parsed request body
or in a stored column: `null` is Python `None` (also the result of
`dict.get` on a missing key), and form bodies carry strings while JSON
bodies may carry integers, strings or null. -/
inductive Value where
  | null : Value
  | int : Int → Value
  | str : String → Value
deriving DecidableEq, Repr

/-- Python truthiness for the values above: `None`, `0` and `""` are falsy. -/
def Value.truthy : Value → Bool
  | .null => false
  | .int n => n != 0
  | .str s => s != ""

/-- A parsed request body: `request.form.to_dict()` or `request.get_json()`. -/
abbrev Dict := List (String × Value)

/-- Python `data.get(k)`: the value stored under `k`, or `None` when the key
is missing (a stored JSON null is already Python `None`, so both give
`Value.null`). -/
def dictGet (d : Dict) (k : String) : Value :=
  match d.find? (fun p => p.1 == k) with
  | some p => p.2
  | none => .null

/-- Python `k in data`. -/
def dictMem (d : Dict) (k : String) : Bool :=
  d.any (fun p => p.1 == k)

/-- Python `str.strip` style whitespace test used by `int()` on strings. -/
def isSpaceChar (c : Char) : Bool :=
  c == ' ' || c == '\t' || c == '\n' || c == '\r'

/-- Digit test for ASCII decimal digits. -/
def isDig (c : Char) : Bool :=
  '0' ≤ c && c ≤ '9'

/-- Numeric value of an ASCII digit. -/
def digVal (c : Char) : Nat :=
  c.toNat - 48

/-- Decimal value of a digit list (underscores already removed). -/
def digitsVal (cs : List Char) : Nat :=
  cs.foldl (fun a c => a * 10 + digVal c) 0

/-- The digit part accepted by Python `int()`: nonempty, digits with single
underscores only between digits (`digit(_?digit)*`). -/
def pyDigitPart (cs : List Char) : Bool :=
  match cs with
  | [] => false
  | c :: rest =>
    isDig c &&
    (List.all (List.zip (c :: rest) rest) (fun p =>
      (isDig p.1 || isDig p.2) && (isDig p.1 || p.1 == '_') && (isDig p.2 || p.2 == '_'))) &&
    isDig ((c :: rest).getLast (by simp))

/-- Python `int(s)` on a string: surrounding whitespace stripped, an optional
sign, then decimal digits possibly separated by single underscores; anything
else raises `ValueError`, which we model as `none`. -/
def pyParseInt (s : String) : Option Int :=
  let cs := (s.data.dropWhile isSpaceChar).reverse.dropWhile isSpaceChar |>.reverse
  match cs with
  | '+' :: rest =>
    if pyDigitPart rest then some (Int.ofNat (digitsVal (rest.filter isDig))) else none
  | '-' :: rest =>
    if pyDigitPart rest then some (-(Int.ofNat (digitsVal (rest.filter isDig)))) else none
  | rest =>
    if pyDigitPart rest then some (Int.ofNat (digitsVal (rest.filter isDig))) else none

/-- `utils/helpers.py` `extract_int(value, default)`: returns
`int(value) if value is not None and value != "" else default`, with any
`TypeError`/`ValueError` from the conversion giving `default`. The default is
itself a dynamic value (the routes pass `None`, integers, and prior column
values). -/
def extract_int (value : Value) (default : Value) : Value :=
  match value with
  | .null => default
  | .int n => .int n
  | .str s =>
    if s = "" then default
    else
      match pyParseInt s with
      | some n => .int n
      | none => default

/-- A calendar date as produced by `datetime.date`. -/
structure Date where
  year : Nat
  month : Nat
  day : Nat
deriving DecidableEq, Repr

/-- Gregorian leap-year test, as in `datetime`. -/
def isLeap (y : Nat) : Bool :=
  (y % 4 == 0 && y % 100 != 0) || y % 400 == 0

/-- Days in a month, as validated by the `datetime` constructor. -/
def daysInMonth (y m : Nat) : Nat :=
  if m == 2 then (if isLeap y then 29 else 28)
  else if m == 4 || m == 6 || m == 9 || m == 11 then 30
  else 31

/-- The `datetime` constructor's validity check (`MINYEAR = 1`,
`MAXYEAR = 9999`); an out-of-range component raises `ValueError`. -/
def validDate (y m d : Nat) : Bool :=
  1 ≤ y && y ≤ 9999 && 1 ≤ m && m ≤ 12 && 1 ≤ d && d ≤ daysInMonth y m

/-- `datetime(y, m, d).date()` as an option: `none` models the
`ValueError` that `strptime` raises on an impossible calendar date. -/
def mkDate (y m d : Nat) : Option Date :=
  if validDate y m d then some ⟨y, m, d⟩ else none

/-- The `strptime` regex for `%Y`: exactly four digits. -/
def pYear : List Char → Option (Nat × List Char)
  | a :: b :: c :: d :: rest =>
    if isDig a && isDig b && isDig c && isDig d then
      some (digitsVal [a, b, c, d], rest)
    else none
  | _ => none

/-- The `strptime` regex for `%m` (`1[0-2]|0[1-9]|[1-9]`): the two-digit
alternatives first, then the single digit, in the pattern's order. -/
def pMonth (cs : List Char) : List (Nat × List Char) :=
  (match cs with
   | a :: b :: rest =>
     if isDig a && isDig b &&
        ((digVal a == 1 && digVal b ≤ 2) || (digVal a == 0 && 1 ≤ digVal b)) then
       [(digVal a * 10 + digVal b, rest)]
     else []
   | _ => []) ++
  (match cs with
   | a :: rest => if isDig a && 1 ≤ digVal a then [(digVal a, rest)] else []
   | _ => [])

/-- The `strptime` regex for `%d` (`3[01]|[12]\d|0[1-9]|[1-9]`). -/
def pDay (cs : List Char) : List (Nat × List Char) :=
  (match cs with
   | a :: b :: rest =>
     if isDig a && isDig b &&
        ((digVal a == 3 && digVal b ≤ 1) || digVal a == 1 || digVal a == 2 ||
         (digVal a == 0 && 1 ≤ digVal b)) then
       [(digVal a * 10 + digVal b, rest)]
     else []
   | _ => []) ++
  (match cs with
   | a :: rest => if isDig a && 1 ≤ digVal a then [(digVal a, rest)] else []
   | _ => [])

/-- The `strptime` regex for `%H` (`2[0-3]|[0-1]\d|\d`). -/
def pHour (cs : List Char) : List (Nat × List Char) :=
  (match cs with
   | a :: b :: rest =>
     if isDig a && isDig b &&
        ((digVal a == 2 && digVal b ≤ 3) || digVal a ≤ 1) then
       [(digVal a * 10 + digVal b, rest)]
     else []
   | _ => []) ++
  (match cs with
   | a :: rest => if isDig a then [(digVal a, rest)] else []
   | _ => [])

/-- The `strptime` regex for `%M` and `%S` (`[0-5]\d|\d`). -/
def pMinSec (cs : List Char) : List (Nat × List Char) :=
  (match cs with
   | a :: b :: rest =>
     if isDig a && isDig b && digVal a ≤ 5 then
       [(digVal a * 10 + digVal b, rest)]
     else []
   | _ => []) ++
  (match cs with
   | a :: rest => if isDig a then [(digVal a, rest)] else []
   | _ => [])

/-- A literal character of the format string. -/
def pLit (c : Char) : List Char → Option (List Char)
  | x :: rest => if x == c then some rest else none
  | _ => none

/-- Regex search for `%Y-%m-%d` against the whole string (strptime requires
a full match), with the pattern's backtracking order: the first complete
match wins. -/
def matchDateOnly (cs : List Char) : Option (Nat × Nat × Nat) :=
  (pYear cs).bind (fun yr =>
    (pLit '-' yr.2).bind (fun r1 =>
      (pMonth r1).findSome? (fun mo =>
        (pLit '-' mo.2).bind (fun r2 =>
          (pDay r2).findSome? (fun dy =>
            if dy.2 = [] then some (yr.1, mo.1, dy.1) else none)))))

/-- The trailing `%H:%M:%S` part shared by both datetime formats: matches
when the remainder is exactly a valid time, whose value `strptime` checks by
regex and the route then discards via `.date()`. -/
def matchTimeTail (cs : List Char) : Option Unit :=
  (pHour cs).findSome? (fun h =>
    (pLit ':' h.2).bind (fun r1 =>
      (pMinSec r1).findSome? (fun m =>
        (pLit ':' m.2).bind (fun r2 =>
          (pMinSec r2).findSome? (fun s =>
            if s.2 = [] then some () else none)))))

/-- Regex search for `%Y-%m-%d` followed by a separator and `%H:%M:%S`. -/
def matchDateTime (sep : Char) (cs : List Char) : Option (Nat × Nat × Nat) :=
  (pYear cs).bind (fun yr =>
    (pLit '-' yr.2).bind (fun r1 =>
      (pMonth r1).findSome? (fun mo =>
        (pLit '-' mo.2).bind (fun r2 =>
          (pDay r2).findSome? (fun dy =>
            (pLit sep dy.2).bind (fun r3 =>
              (matchTimeTail r3).map (fun _ => (yr.1, mo.1, dy.1))))))))

/-- `datetime.strptime(s, "%Y-%m-%d").date()` as an option: regex match,
then calendar validation; `none` is the caught `ValueError`. -/
def strpDateOnly (s : String) : Option Date :=
  (matchDateOnly s.data).bind (fun t => mkDate t.1 t.2.1 t.2.2)

/-- `datetime.strptime(s, "%Y-%m-%dT%H:%M:%S").date()` as an option. -/
def strpDateTimeT (s : String) : Option Date :=
  (matchDateTime 'T' s.data).bind (fun t => mkDate t.1 t.2.1 t.2.2)

/-- `datetime.strptime(s, "%Y-%m-%d %H:%M:%S").date()` as an option. -/
def strpDateTimeSp (s : String) : Option Date :=
  (matchDateTime ' ' s.data).bind (fun t => mkDate t.1 t.2.1 t.2.2)

/-- `utils/helpers.py` `parse_date(value)`: falsy input gives `None`;
a string is tried against the three formats in order, each `ValueError`
continuing to the next, and `None` returned when all fail. A truthy
non-string (e.g. a JSON integer) makes `strptime` raise `TypeError`, which
the function's `except ValueError` does not catch: `.error ()` models the
exception escaping to the caller. -/
def parse_date (value : Value) : Except Unit (Option Date) :=
  match value with
  | .null => .ok none
  | .int n => if n == 0 then .ok none else .error ()
  | .str s =>
    if s = "" then .ok none
    else
      .ok (match strpDateOnly s with
        | some d => some d
        | none =>
          match strpDateTimeT s with
          | some d => some d
          | none => strpDateTimeSp s)

/-- Value of a base64 alphabet character. -/
def b64charVal (c : Char) : Option Nat :=
  if 'A' ≤ c && c ≤ 'Z' then some (c.toNat - 65)
  else if 'a' ≤ c && c ≤ 'z' then some (c.toNat - 97 + 26)
  else if '0' ≤ c && c ≤ '9' then some (c.toNat - 48 + 52)
  else if c == '+' then some 62
  else if c == '/' then some 63
  else none

/-- One base64 quad to bytes, honouring trailing `=` padding. -/
def b64quad (a b c d : Char) : Option (List Nat) :=
  (b64charVal a).bind (fun va =>
    (b64charVal b).bind (fun vb =>
      if c == '=' && d == '=' then some [va * 4 + vb / 16]
      else
        (b64charVal c).bind (fun vc =>
          if d == '=' then some [va * 4 + vb / 16, (vb % 16) * 16 + vc / 4]
          else
            (b64charVal d).map (fun vd =>
              [va * 4 + vb / 16, (vb % 16) * 16 + vc / 4, (vc % 4) * 64 + vd]))))

/-- Decode whole quads; padding may only appear in the final quad. -/
def b64groups : List Char → Option (List Nat)
  | [] => some []
  | a :: b :: c :: d :: rest =>
    (b64quad a b c d).bind (fun bytes =>
      if rest = [] then some bytes
      else if c == '=' || d == '=' then none
      else (b64groups rest).map (fun more => bytes ++ more))
  | _ => none

/-- `base64.b64decode` of the Python standard library as the routes use it:
characters outside the base64 alphabet are discarded (the default
`validate=False`), then the text must form whole four-character groups with
`=` padding only at the end; a failure is the raised `binascii.Error`,
which `get_image_blob` catches. -/
def b64decode (s : String) : Option (List Nat) :=
  b64groups (s.data.filter (fun c => (b64charVal c).isSome || c == '='))

/-- A multipart file upload (`request.files["image"]`). -/
structure FileUpload where
  filename : String
  content : List Nat
deriving DecidableEq, Repr

/-- An inbound request as the handlers see it: the parsed body dictionary
(form fields or JSON members) and the optional multipart image file. -/
structure Request where
  data : Dict
  image_file : Option FileUpload
deriving DecidableEq, Repr

/-- `utils/helpers.py` `get_image_blob()`: a multipart file named `image`
with a nonempty filename wins; otherwise a truthy `image_base64` body field
is base64-decoded, any exception (bad base64, non-string value) giving
`None`; otherwise `None`. -/
def get_image_blob (req : Request) : Option (List Nat) :=
  let fromB64 :=
    let raw := dictGet req.data "image_base64"
    if raw.truthy then
      match raw with
      | .str s => b64decode s
      | _ => none
    else none
  match req.image_file with
  | some f => if f.filename ≠ "" then some f.content else fromB64
  | none => fromB64

/-- A stored Category row (`models/category.py`): unique-by-name grouping
with an optional description and image. -/
structure Category where
  id : Nat
  name : Value
  description : Value
  category_image : Option (List Nat)
deriving DecidableEq, Repr

/-- A stored Product row, with the fields the routes read and write; column
values stay dynamically typed because PATCH assigns raw body values. -/
structure Product where
  id : Nat
  name : Value
  brand : Value
  price : Value
  category_id : Value
  stock_level : Value
  min_stock_level : Value
  expiration_date : Option Date
  image_blob : Option (List Nat)
deriving DecidableEq, Repr

/-- Modelled from the spec: `core/activity_logger.py` is not among the
given source files. Per the spec, an ActivityLogEntry records the HTTP
method, the target entity, the actor and a description of the change; the
wall-clock timestamp is left out of the model. -/
structure LogEntry where
  method : String
  target_entity : String
  user_id : Value
  details : String
deriving DecidableEq, Repr

/-- The persistent store: the two entity tables with their autoincrement
counters, and the append-only activity log. -/
structure DB where
  categories : List Category
  products : List Product
  next_cat_id : Nat
  next_prod_id : Nat
  log : List LogEntry
deriving DecidableEq, Repr

/-- Modelled from the spec: `ActivityLogger.log_api_activity` appends one
ActivityLogEntry describing a successful mutating call. -/
def log_api_activity (db : DB) (method target : String) (uid : Value) (details : String) : DB :=
  { db with log := db.log ++ [⟨method, target, uid, details⟩] }

/-- Python `str()` of a body value, for f-string interpolation in log
details. -/
def pyStr : Value → String
  | .null => "None"
  | .int n => toString n
  | .str s => s

/-- `Category.query.get(id)` for a route path id. -/
def catGetId (db : DB) (i : Nat) : Option Category :=
  db.categories.find? (fun c => c.id == i)

/-- `Category.query.get(category_id)` for a dynamically typed id coming
from `extract_int` (always `null` or an integer at the call sites). -/
def catGetVal (db : DB) : Value → Option Category
  | .int n => db.categories.find? (fun c => (c.id : Int) == n)
  | _ => none

/-- `Product.query.get(id)` for a route path id. -/
def prodGetId (db : DB) (i : Nat) : Option Product :=
  db.products.find? (fun p => p.id == i)

/-- `category.products`: the relationship rows whose foreign key equals the
category's primary key. -/
def linkedProducts (db : DB) (cid : Nat) : List Product :=
  db.products.filter (fun p => p.category_id == Value.int (Int.ofNat cid))

/-- A serialized HTTP response: the status code and the `errors` list of a
400 body (empty on success). -/
structure Response where
  status : Nat
  errors : List String
deriving DecidableEq, Repr

/-- `routes/category.py` `create_category`: requires a truthy name, rejects
a duplicate name, stores the new row, and logs only when the body carries a
truthy `user_id`. -/
def create_category (req : Request) (db : DB) : Response × DB :=
  let data := req.data
  let name := dictGet data "name"
  if ¬ name.truthy then
    (⟨400, ["Category name is required"]⟩, db)
  else if (db.categories.find? (fun c => c.name == name)).isSome then
    (⟨400, ["Category name already exists"]⟩, db)
  else
    let image_blob := get_image_blob req
    let category : Category := ⟨db.next_cat_id, name, dictGet data "description", image_blob⟩
    let db1 := { db with
      categories := db.categories ++ [category],
      next_cat_id := db.next_cat_id + 1 }
    let user_id := dictGet data "user_id"
    let db2 :=
      if user_id.truthy then
        log_api_activity db1 "POST" "category" user_id ("Created category: " ++ pyStr name)
      else db1
    (⟨201, []⟩, db2)

/-- `routes/category.py` `replace_category`: name required, uniqueness
re-checked excluding self, description fully replaced, image replaced only
when sent, activity logged unconditionally on success. -/
def replace_category (cat_id : Nat) (req : Request) (db : DB) : Response × DB :=
  match catGetId db cat_id with
  | none => (⟨404, []⟩, db)
  | some category =>
    let data := req.data
    let name := dictGet data "name"
    if ¬ name.truthy then
      (⟨400, ["Category name is required for PUT"]⟩, db)
    else if (db.categories.find? (fun c => c.name == name && c.id != cat_id)).isSome then
      (⟨400, ["Category name already exists"]⟩, db)
    else
      let old_name := category.name
      let updated : Category := { category with
        name := name,
        description := dictGet data "description",
        category_image :=
          match get_image_blob req with
          | some b => some b
          | none => category.category_image }
      let db1 := { db with
        categories := db.categories.map (fun c => if c.id == cat_id then updated else c) }
      let db2 := log_api_activity db1 "PUT" "category" (dictGet data "user_id")
        ("Replaced category: " ++ pyStr old_name ++ " → " ++ pyStr name)
      (⟨200, []⟩, db2)

/-- `routes/category.py` `update_category` (PATCH): only supplied fields
change; a supplied name must be nonempty and unique; per-field change
descriptions are logged. -/
def update_category (cat_id : Nat) (req : Request) (db : DB) : Response × DB :=
  match catGetId db cat_id with
  | none => (⟨404, []⟩, db)
  | some category =>
    let data := req.data
    let hasName := dictMem data "name"
    if hasName && ¬ (dictGet data "name").truthy then
      (⟨400, ["Category name cannot be empty"]⟩, db)
    else if hasName &&
        (db.categories.find? (fun c => c.name == dictGet data "name" && c.id != cat_id)).isSome then
      (⟨400, ["Category name already exists"]⟩, db)
    else
      let changes1 : List String :=
        if hasName then
          ["name: " ++ pyStr category.name ++ " → " ++ pyStr (dictGet data "name")]
        else []
      let cat1 := if hasName then { category with name := dictGet data "name" } else category
      let hasDesc := dictMem data "description"
      let changes2 := changes1 ++ (if hasDesc then ["description updated"] else [])
      let cat2 := if hasDesc then { cat1 with description := dictGet data "description" } else cat1
      let newImage := get_image_blob req
      let changes3 := changes2 ++ (match newImage with | some _ => ["image updated"] | none => [])
      let cat3 :=
        match newImage with
        | some b => { cat2 with category_image := some b }
        | none => cat2
      let db1 := { db with
        categories := db.categories.map (fun c => if c.id == cat_id then cat3 else c) }
      let details := "Updated category " ++ pyStr cat3.name ++ ": " ++
        String.intercalate ", " changes3
      (⟨200, []⟩, log_api_activity db1 "PATCH" "category" (dictGet data "user_id") details)

/-- `routes/category.py` `delete_category`: blocked with a 400 reporting
the linked-product count while any Product references the category;
otherwise the row is removed and the deletion logged. -/
def delete_category (cat_id : Nat) (req : Request) (db : DB) : Response × DB :=
  match catGetId db cat_id with
  | none => (⟨404, []⟩, db)
  | some category =>
    let user_id := dictGet req.data "user_id"
    let linked := linkedProducts db cat_id
    if linked.length > 0 then
      (⟨400, ["Cannot delete category while it has " ++ toString linked.length ++
        " linked products"]⟩, db)
    else
      let category_name := category.name
      let db1 := { db with categories := db.categories.filter (fun c => c.id != cat_id) }
      let db2 := log_api_activity db1 "DELETE" "category" user_id
        ("Deleted category '" ++ pyStr category_name ++ "'")
      (⟨200, []⟩, db2)

/-- `routes/products.py` `create_product`: truthy name and numeric price
required; a truthy `category_id` is coerced and, when the coercion is
truthy, checked against the Category table; stock levels coerce with
defaults 0 and 10; the expiration date is parsed leniently (a truthy
non-string raises `TypeError`, surfacing as a 500 with nothing written);
no activity is logged. -/
def create_product (req : Request) (db : DB) : Response × DB :=
  let data := req.data
  if ¬ (dictGet data "name").truthy then
    (⟨400, ["Product name is required"]⟩, db)
  else
    let price := extract_int (dictGet data "price") .null
    if price = .null then
      (⟨400, ["Price must be a number"]⟩, db)
    else
      let rawCat := dictGet data "category_id"
      let category_id := if rawCat.truthy then extract_int rawCat .null else .null
      if category_id.truthy && (catGetVal db category_id).isNone then
        (⟨400, ["Invalid category ID"]⟩, db)
      else
        match parse_date (dictGet data "expiration_date") with
        | .error _ => (⟨500, []⟩, db)
        | .ok expiration =>
          let product : Product := ⟨db.next_prod_id, dictGet data "name", dictGet data "brand",
            price, category_id,
            extract_int (dictGet data "stock_level") (.int 0),
            extract_int (dictGet data "min_stock_level") (.int 10),
            expiration, get_image_blob req⟩
          (⟨201, []⟩, { db with
            products := db.products ++ [product],
            next_prod_id := db.next_prod_id + 1 })

/-- `routes/products.py` `replace_product` (PUT): name key and numeric
price required; brand and category_id are replaced from the body (null when
absent), while `stock_level` and `min_stock_level` fall back to the prior
column values and an unparseable or absent expiration date keeps the prior
one (`parse_date(...) or product.expiration_date`); the image is replaced
only when sent; no activity is logged. -/
def replace_product (product_id : Nat) (req : Request) (db : DB) : Response × DB :=
  match prodGetId db product_id with
  | none => (⟨404, []⟩, db)
  | some product =>
    let data := req.data
    if ¬ dictMem data "name" then
      (⟨400, ["Product name is required for PUT"]⟩, db)
    else
      let price := extract_int (dictGet data "price") .null
      if price = .null then
        (⟨400, ["Price must be a number"]⟩, db)
      else
        let hasCat := dictMem data "category_id"
        let category_id := if hasCat then extract_int (dictGet data "category_id") .null else .null
        if category_id.truthy && (catGetVal db category_id).isNone then
          (⟨400, ["Invalid category ID"]⟩, db)
        else
          match parse_date (dictGet data "expiration_date") with
          | .error _ => (⟨500, []⟩, db)
          | .ok expiration =>
            let updated : Product := { product with
              name := dictGet data "name",
              brand := dictGet data "brand",
              price := price,
              category_id := category_id,
              stock_level := extract_int (dictGet data "stock_level") product.stock_level,
              min_stock_level :=
                extract_int (dictGet data "min_stock_level") product.min_stock_level,
              expiration_date :=
                match expiration with
                | some d => some d
                | none => product.expiration_date,
              image_blob :=
                match get_image_blob req with
                | some b => some b
                | none => product.image_blob }
            (⟨200, []⟩, { db with
              products := db.products.map (fun p => if p.id == product_id then updated else p) })

/-- `setattr(product, field, data[field])` for the simple fields of the
PATCH loop. -/
def setField (p : Product) (field : String) (v : Value) : Product :=
  match field with
  | "name" => { p with name := v }
  | "brand" => { p with brand := v }
  | "stock_level" => { p with stock_level := v }
  | "min_stock_level" => { p with min_stock_level := v }
  | _ => p

/-- The PATCH handler's simple-field loop:
`for field in ('name', 'brand', 'stock_level', 'min_stock_level'): if field
in data: setattr(product, field, data[field])`. -/
def applySimpleFields (data : Dict) (p : Product) : Product :=
  ["name", "brand", "stock_level", "min_stock_level"].foldl
    (fun q f => if dictMem data f then setField q f (dictGet data f) else q) p

/-- `routes/products.py` `patch_product`: a supplied name must be truthy
and a supplied price numeric; a supplied `category_id` is coerced, checked
against the Category table only when the coercion is truthy, and assigned
regardless; `name`, `brand`, `stock_level` and `min_stock_level` are
assigned verbatim from the body; a supplied expiration date is re-parsed
(null on no match); the image is replaced only when sent; no activity is
logged. -/
def patch_product (id : Nat) (req : Request) (db : DB) : Response × DB :=
  match prodGetId db id with
  | none => (⟨404, []⟩, db)
  | some product =>
    let data := req.data
    if dictMem data "name" && ¬ (dictGet data "name").truthy then
      (⟨400, ["Product name cannot be empty"]⟩, db)
    else
      let hasPrice := dictMem data "price"
      let price := extract_int (dictGet data "price") .null
      if hasPrice && price = .null then
        (⟨400, ["Price must be a number"]⟩, db)
      else
        let p1 := if hasPrice then { product with price := price } else product
        let hasCat := dictMem data "category_id"
        let cat_id := extract_int (dictGet data "category_id") .null
        if hasCat && cat_id.truthy && (catGetVal db cat_id).isNone then
          (⟨400, ["Invalid category ID"]⟩, db)
        else
          let p2 := if hasCat then { p1 with category_id := cat_id } else p1
          let p6 := applySimpleFields data p2
          let expStep : Except Unit Product :=
            if dictMem data "expiration_date" then
              match parse_date (dictGet data "expiration_date") with
              | .error e => .error e
              | .ok d => .ok { p6 with expiration_date := d }
            else .ok p6
          match expStep with
          | .error _ => (⟨500, []⟩, db)
          | .ok p7 =>
            let p8 :=
              match get_image_blob req with
              | some b => { p7 with image_blob := some b }
              | none => p7
            (⟨200, []⟩, { db with
              products := db.products.map (fun q => if q.id == id then p8 else q) })

/-- `routes/products.py` `delete_product`: unconditional removal, no
referential check and no activity log. -/
def delete_product (id : Nat) (db : DB) : Response × DB :=
  match prodGetId db id with
  | none => (⟨404, []⟩, db)
  | some _ =>
    (⟨200, []⟩, { db with products := db.products.filter (fun p => p.id != id) })

/-- A mutating request of the CRUD surface, as the router dispatches it. -/
inductive Mutation where
  | catCreate (req : Request)
  | catReplace (id : Nat) (req : Request)
  | catPatch (id : Nat) (req : Request)
  | catDelete (id : Nat) (req : Request)
  | prodCreate (req : Request)
  | prodReplace (id : Nat) (req : Request)
  | prodPatch (id : Nat) (req : Request)
  | prodDelete (id : Nat)
deriving DecidableEq, Repr

/-- The router: one handler per mutating verb/path. -/
def dispatch : Mutation → DB → Response × DB
  | .catCreate req, db => create_category req db
  | .catReplace i req, db => replace_category i req db
  | .catPatch i req, db => update_category i req db
  | .catDelete i req, db => delete_category i req db
  | .prodCreate req, db => create_product req db
  | .prodReplace i req, db => replace_product i req db
  | .prodPatch i req, db => patch_product i req db
  | .prodDelete i, db => delete_product i db

/-- A request body with one key removed, used to state that a field can
never affect a handler's response. -/
def eraseKey (d : Dict) (k : String) : Dict :=
  d.filter (fun p => p.1 != k)

/-! ### Helper lemmas about the dictionary model -/

@[simp]
theorem dictGet_nil (k : String) : dictGet [] k = .null := rfl

@[simp]
theorem dictGet_cons (a : String) (v : Value) (d : Dict) (k : String) :
    dictGet ((a, v) :: d) k = if a = k then v else dictGet d k := by
  by_cases h : a = k
  · simp [dictGet, List.find?, h]
  · have hb : (a == k) = false := beq_eq_false_iff_ne.mpr h
    simp [dictGet, List.find?, hb, h]

@[simp]
theorem dictMem_nil (k : String) : dictMem [] k = false := rfl

@[simp]
theorem dictMem_cons (a : String) (v : Value) (d : Dict) (k : String) :
    dictMem ((a, v) :: d) k = (a == k || dictMem d k) := by
  simp [dictMem]

@[simp]
theorem extract_int_null (d : Value) : extract_int .null d = d := rfl

@[simp]
theorem Value.truthy_null : Value.truthy .null = false := rfl

/-! ### Claim C1 -/

/-- Claim C1 is false on the code: a PUT whose body holds only `name` and a
numeric `price` returns 200 but does NOT reset `stock_level` to 0,
`min_stock_level` to 10 or `expiration_date` to null — the prior values
(here 5, 3 and 2030-01-02) survive, because `replace_product` passes the
prior column values as the `extract_int` defaults and keeps the old date
via `parse_date(...) or product.expiration_date`. -/
theorem claim1_counterexample :
    (replace_product 1 ⟨[("name", .str "X"), ("price", .int 7)], none⟩
        ⟨[], [⟨1, .str "Old", .str "B", .int 2, .null, .int 5, .int 3,
          some ⟨2030, 1, 2⟩, none⟩], 1, 2, []⟩).1.status = 200 ∧
    (prodGetId (replace_product 1 ⟨[("name", .str "X"), ("price", .int 7)], none⟩
        ⟨[], [⟨1, .str "Old", .str "B", .int 2, .null, .int 5, .int 3,
          some ⟨2030, 1, 2⟩, none⟩], 1, 2, []⟩).2 1).map Product.stock_level =
      some (.int 5) ∧
    (prodGetId (replace_product 1 ⟨[("name", .str "X"), ("price", .int 7)], none⟩
        ⟨[], [⟨1, .str "Old", .str "B", .int 2, .null, .int 5, .int 3,
          some ⟨2030, 1, 2⟩, none⟩], 1, 2, []⟩).2 1).map Product.min_stock_level =
      some (.int 3) ∧
    (prodGetId (replace_product 1 ⟨[("name", .str "X"), ("price", .int 7)], none⟩
        ⟨[], [⟨1, .str "Old", .str "B", .int 2, .null, .int 5, .int 3,
          some ⟨2030, 1, 2⟩, none⟩], 1, 2, []⟩).2 1).map Product.expiration_date =
      some (some ⟨2030, 1, 2⟩) ∧
    Value.int 5 ≠ Value.int 0 ∧ Value.int 3 ≠ Value.int 10 ∧
    (some (Date.mk 2030 1 2) : Option Date) ≠ (none : Option Date) := by
  decide

/-- Claim C1 as amended: for every prior state, a PUT on an existing Product
whose body contains only `name` and a numeric `price` succeeds with 200 and
resets `brand` and `category_id` to null, but keeps `stock_level`,
`min_stock_level`, `expiration_date` and the image at their prior values
(the coercion defaults are the prior column values, not the schema
defaults). -/
theorem claim1_put_keeps_unsupplied_levels (db : DB) (pid : Nat) (p : Product)
    (nv pv : Value) (k : Int)
    (hp : prodGetId db pid = some p)
    (hprice : extract_int pv .null = .int k) :
    replace_product pid ⟨[("name", nv), ("price", pv)], none⟩ db =
      (⟨200, []⟩, { db with products := db.products.map (fun q =>
        if q.id == pid then
          { p with name := nv, brand := .null, price := .int k, category_id := .null }
        else q) }) := by
  unfold replace_product
  rw [hp]
  simp [dictGet_cons, dictMem_cons, hprice, parse_date, get_image_blob]

/-- Witness for `claim1_put_keeps_unsupplied_levels` at a concrete store. -/
theorem claim1_witness :
    replace_product 1 ⟨[("name", .str "X"), ("price", .int 7)], none⟩
        ⟨[], [⟨1, .str "Old", .str "B", .int 2, .null, .int 5, .int 3,
          some ⟨2030, 1, 2⟩, none⟩], 1, 2, []⟩ =
      (⟨200, []⟩, ⟨[], [⟨1, .str "X", .null, .int 7, .null, .int 5, .int 3,
          some ⟨2030, 1, 2⟩, none⟩], 1, 2, []⟩) := by
  have h := claim1_put_keeps_unsupplied_levels
    ⟨[], [⟨1, .str "Old", .str "B", .int 2, .null, .int 5, .int 3,
      some ⟨2030, 1, 2⟩, none⟩], 1, 2, []⟩
    1 ⟨1, .str "Old", .str "B", .int 2, .null, .int 5, .int 3, some ⟨2030, 1, 2⟩, none⟩
    (.str "X") (.int 7) 7 (by decide) (by decide)
  exact h.trans (by decide)

/-! ### Claim C2 -/

/-- Claim C2 is false on the code: a successful DELETE of a Product (status
200) emits no ActivityLogEntry at all — the product routes never call the
activity logger. -/
theorem claim2_counterexample :
    (delete_product 1 ⟨[], [⟨1, .str "Old", .null, .int 2, .null, .int 5, .int 3,
      none, none⟩], 1, 2, []⟩).1.status = 200 ∧
    (delete_product 1 ⟨[], [⟨1, .str "Old", .null, .int 2, .null, .int 5, .int 3,
      none, none⟩], 1, 2, []⟩).2.log = [] := by
  decide

/-- Claim C2 as amended: Category replace, update and delete emit exactly one
ActivityLogEntry on success and none on failure; Category create emits one
exactly when it succeeds AND the body carries a truthy `user_id`; the four
Product mutations never emit any entry, succeed or fail. -/
theorem claim2_log_discipline (db : DB) (req : Request) (i : Nat) :
    ((create_category req db).2.log.length = db.log.length +
      (if (create_category req db).1.status = 201 ∧ (dictGet req.data "user_id").truthy
        then 1 else 0)) ∧
    ((replace_category i req db).2.log.length = db.log.length +
      (if (replace_category i req db).1.status = 200 then 1 else 0)) ∧
    ((update_category i req db).2.log.length = db.log.length +
      (if (update_category i req db).1.status = 200 then 1 else 0)) ∧
    ((delete_category i req db).2.log.length = db.log.length +
      (if (delete_category i req db).1.status = 200 then 1 else 0)) ∧
    ((create_product req db).2.log = db.log) ∧
    ((replace_product i req db).2.log = db.log) ∧
    ((patch_product i req db).2.log = db.log) ∧
    ((delete_product i db).2.log = db.log) := by
  refine ⟨?_, ?_, ?_, ?_, ?_, ?_, ?_, ?_⟩
  · simp only [create_category]
    repeat' split
    all_goals simp_all [log_api_activity]
  · simp only [replace_category]
    repeat' split
    all_goals simp_all [log_api_activity]
  · simp only [update_category]
    repeat' split
    all_goals simp_all [log_api_activity]
  · simp only [delete_category]
    repeat' split
    all_goals simp_all [log_api_activity]
  · simp only [create_product]
    repeat' split
    all_goals rfl
  · simp only [replace_product]
    repeat' split
    all_goals rfl
  · simp only [patch_product]
    repeat' split
    all_goals rfl
  · simp only [delete_product]
    repeat' split
    all_goals rfl

/-! ### Claim C3 -/

/-- Claim C3: POSTing a Category whose `name` equals an existing Category's
name fails with 400 and the error `Category name already exists`, leaving
the store untouched; POSTing a fresh nonempty name succeeds with 201 and
appends the new row. -/
theorem claim3_duplicate_category_name (db : DB) (req : Request) (nm : String)
    (hname : dictGet req.data "name" = .str nm) (hnm : nm ≠ "") :
    ((∃ c ∈ db.categories, c.name = .str nm) →
      create_category req db = (⟨400, ["Category name already exists"]⟩, db)) ∧
    ((∀ c ∈ db.categories, c.name ≠ .str nm) →
      (create_category req db).1 = ⟨201, []⟩ ∧
      (create_category req db).2.categories = db.categories ++
        [⟨db.next_cat_id, .str nm, dictGet req.data "description", get_image_blob req⟩]) := by
  have htruthy : (Value.str nm).truthy = true := by
    simpa [Value.truthy] using hnm
  constructor
  · rintro ⟨c, hc, hcn⟩
    have hdup : (db.categories.find? (fun x => x.name == Value.str nm)).isSome = true := by
      rw [List.find?_isSome]
      exact ⟨c, hc, by simp [hcn]⟩
    simp only [create_category, hname, htruthy, hdup, eq_self_iff_true, not_true,
      if_false, if_true]
  · intro hfresh
    have hdup : db.categories.find? (fun x => x.name == Value.str nm) = none := by
      rw [List.find?_eq_none]
      intro x hx
      simp [hfresh x hx]
    simp only [create_category, hname, htruthy, hdup, Option.isSome_none,
      Bool.false_eq_true, if_false, not_true, eq_self_iff_true, if_true]
    constructor
    · trivial
    · split <;> simp [log_api_activity]

/-- Witness for `claim3_duplicate_category_name`: the spec's Beverages
example, second POST with the same name. -/
theorem claim3_witness :
    create_category ⟨[("name", .str "Beverages")], none⟩
        ⟨[⟨1, .str "Beverages", .null, none⟩], [], 2, 1, []⟩ =
      (⟨400, ["Category name already exists"]⟩,
        ⟨[⟨1, .str "Beverages", .null, none⟩], [], 2, 1, []⟩) :=
  (claim3_duplicate_category_name ⟨[⟨1, .str "Beverages", .null, none⟩], [], 2, 1, []⟩
    ⟨[("name", .str "Beverages")], none⟩ "Beverages" (by decide) (by decide)).1
    ⟨⟨1, .str "Beverages", .null, none⟩, by decide, by decide⟩

/-! ### Claim C4 -/

/-- Claim C4: DELETE on a Category referenced by at least one Product fails
with 400, leaves the store untouched (hence the category in place), and the
error message reports the linked-product count; DELETE on a Category with no
linked Products succeeds with 200 and removes it from the store. -/
theorem claim4_delete_category_guard (db : DB) (cid : Nat) (req : Request)
    (c : Category) (hc : catGetId db cid = some c) :
    (linkedProducts db cid ≠ [] →
      delete_category cid req db =
        (⟨400, ["Cannot delete category while it has " ++
          toString (linkedProducts db cid).length ++ " linked products"]⟩, db)) ∧
    (linkedProducts db cid = [] →
      (delete_category cid req db).1 = ⟨200, []⟩ ∧
      catGetId (delete_category cid req db).2 cid = none) := by
  constructor
  · intro hne
    have hlen : (linkedProducts db cid).length > 0 := List.length_pos.mpr hne
    simp [delete_category, hc, hlen]
  · intro hnil
    simp only [delete_category, hc, hnil]
    refine ⟨by simp, ?_⟩
    simp only [List.length_nil, gt_iff_lt, lt_self_iff_false, if_false, log_api_activity]
    rw [catGetId, List.find?_eq_none]
    intro x hx
    have := (List.mem_filter.mp hx).2
    simpa using this

/-- Witness for `claim4_delete_category_guard`: one category with one
linked product is not deletable and the message counts that product. -/
theorem claim4_witness :
    delete_category 1 ⟨[], none⟩
        ⟨[⟨1, .str "Bev", .null, none⟩],
          [⟨1, .str "Old", .null, .int 2, .int 1, .int 5, .int 3, none, none⟩], 2, 2, []⟩ =
      (⟨400, ["Cannot delete category while it has 1 linked products"]⟩,
        ⟨[⟨1, .str "Bev", .null, none⟩],
          [⟨1, .str "Old", .null, .int 2, .int 1, .int 5, .int 3, none, none⟩], 2, 2, []⟩) := by
  have h := (claim4_delete_category_guard
    ⟨[⟨1, .str "Bev", .null, none⟩],
      [⟨1, .str "Old", .null, .int 2, .int 1, .int 5, .int 3, none, none⟩], 2, 2, []⟩
    1 ⟨[], none⟩ ⟨1, .str "Bev", .null, none⟩ (by decide)).1 (by decide)
  exact h.trans (by decide)

/-! ### Claim C5 -/

/-- Claim C5: a PATCH whose body holds only `stock_level: N` succeeds with
200, sets the product's `stock_level` to exactly `N` (whatever value it is),
and leaves the product's other fields — name, brand, price, category_id,
min_stock_level, expiration_date, image — unchanged. -/
theorem claim5_patch_stock_only_frame (db : DB) (pid : Nat) (p : Product) (N : Value)
    (hp : prodGetId db pid = some p) :
    patch_product pid ⟨[("stock_level", N)], none⟩ db =
      (⟨200, []⟩, { db with products := db.products.map (fun q =>
        if q.id == pid then { p with stock_level := N } else q) }) := by
  unfold patch_product
  rw [hp]
  simp [applySimpleFields, setField, extract_int, parse_date, get_image_blob]

/-- Witness for `claim5_patch_stock_only_frame` at a concrete store. -/
theorem claim5_witness :
    patch_product 1 ⟨[("stock_level", .int 42)], none⟩
        ⟨[], [⟨1, .str "Old", .str "B", .int 2, .null, .int 5, .int 3,
          some ⟨2030, 1, 2⟩, none⟩], 1, 2, []⟩ =
      (⟨200, []⟩, ⟨[], [⟨1, .str "Old", .str "B", .int 2, .null, .int 42, .int 3,
          some ⟨2030, 1, 2⟩, none⟩], 1, 2, []⟩) := by
  have h := claim5_patch_stock_only_frame
    ⟨[], [⟨1, .str "Old", .str "B", .int 2, .null, .int 5, .int 3,
      some ⟨2030, 1, 2⟩, none⟩], 1, 2, []⟩
    1 ⟨1, .str "Old", .str "B", .int 2, .null, .int 5, .int 3, some ⟨2030, 1, 2⟩, none⟩
    (.int 42) (by decide)
  exact h.trans (by decide)

/-! ### Claim C7 -/

/-- Claim C7: every mutating request on the Category or Product resource
that answers 400 leaves the persistent store exactly as it was — every
handler validates before its single commit, and an early 400 return never
commits. -/
theorem claim7_validation_before_commit (m : Mutation) (db : DB)
    (h : (dispatch m db).1.status = 400) : (dispatch m db).2 = db := by
  cases m <;> simp only [dispatch] at h ⊢
  case catCreate req =>
    simp only [create_category] at h ⊢
    repeat' split at h
    all_goals simp_all
  case catReplace i req =>
    simp only [replace_category] at h ⊢
    repeat' split at h
    all_goals simp_all
  case catPatch i req =>
    simp only [update_category] at h ⊢
    repeat' split at h
    all_goals simp_all
  case catDelete i req =>
    simp only [delete_category] at h ⊢
    repeat' split at h
    all_goals simp_all
  case prodCreate req =>
    simp only [create_product] at h ⊢
    repeat' split at h
    all_goals simp_all
  case prodReplace i req =>
    simp only [replace_product] at h ⊢
    repeat' split at h
    all_goals simp_all
  case prodPatch i req =>
    simp only [patch_product] at h ⊢
    repeat' split at h
    all_goals try simp_all
    all_goals repeat' split
    all_goals rfl
  case prodDelete i =>
    simp only [delete_product] at h ⊢
    repeat' split at h
    all_goals simp_all

/-- Witness for `claim7_validation_before_commit`: a duplicate-name POST
answers 400 and the store is unchanged. -/
theorem claim7_witness :
    (dispatch (.catCreate ⟨[("name", .str "Beverages")], none⟩)
      ⟨[⟨1, .str "Beverages", .null, none⟩], [], 2, 1, []⟩).2 =
      ⟨[⟨1, .str "Beverages", .null, none⟩], [], 2, 1, []⟩ :=
  claim7_validation_before_commit
    (.catCreate ⟨[("name", .str "Beverages")], none⟩)
    ⟨[⟨1, .str "Beverages", .null, none⟩], [], 2, 1, []⟩ (by decide)

/-! ### Claim C8 -/

/-- Claim C8: POSTing a product whose body holds only a nonempty `name` and
a `price` string that coerces to an integer succeeds with 201 and stores the
coerced integer price, `stock_level` 0 and `min_stock_level` 10 (the
coercion defaults), with every optional field null. -/
theorem claim8_create_with_string_price (db : DB) (nm ps : String) (k : Int)
    (hnm : nm ≠ "") (hps : pyParseInt ps = some k) :
    create_product ⟨[("name", .str nm), ("price", .str ps)], none⟩ db =
      (⟨201, []⟩, { db with
        products := db.products ++ [⟨db.next_prod_id, .str nm, .null, .int k,
          .null, .int 0, .int 10, none, none⟩],
        next_prod_id := db.next_prod_id + 1 }) := by
  have hpse : ps ≠ "" := by
    intro he
    rw [he] at hps
    exact Option.noConfusion ((by decide : pyParseInt "" = none) ▸ hps)
  have hext : extract_int (.str ps) .null = .int k := by
    simp [extract_int, hpse, hps]
  unfold create_product
  simp [hext, hnm, parse_date, get_image_blob, Value.truthy]

/-- Witness for `claim8_create_with_string_price`: the spec's Milk example,
price string `"50"` stored as integer 50. -/
theorem claim8_witness :
    create_product ⟨[("name", .str "Milk"), ("price", .str "50")], none⟩
        ⟨[], [], 1, 1, []⟩ =
      (⟨201, []⟩, ⟨[], [⟨1, .str "Milk", .null, .int 50, .null, .int 0, .int 10,
        none, none⟩], 1, 2, []⟩) := by
  have h := claim8_create_with_string_price ⟨[], [], 1, 1, []⟩ "Milk" "50" 50
    (by decide) (by decide)
  exact h.trans (by decide)

/-! ### Claim C9 -/

/-- Claim C9: when a PATCH body's `category_id` fails integer coercion
(giving None) or coerces to 0, the falsy result makes the handler skip the
Category-existence check: no request ever answers with the
`Invalid category ID` error, and a body holding only that `category_id`
succeeds with 200, storing the falsy coerced value (clearing the reference
to null, or dangling it at 0). -/
theorem claim9_falsy_category_id_skips_check (db : DB) (pid : Nat) (p : Product)
    (v : Value) (hp : prodGetId db pid = some p)
    (hv : extract_int v .null = .null ∨ extract_int v .null = .int 0) :
    (∀ req : Request, dictGet req.data "category_id" = v →
      "Invalid category ID" ∉ (patch_product pid req db).1.errors) ∧
    patch_product pid ⟨[("category_id", v)], none⟩ db =
      (⟨200, []⟩, { db with products := db.products.map (fun q =>
        if q.id == pid then { p with category_id := extract_int v .null } else q) }) := by
  have htr : (extract_int v .null).truthy = false := by
    rcases hv with h | h <;> rw [h] <;> rfl
  constructor
  · intro req hreq
    simp only [patch_product, hp, hreq]
    repeat' split
    all_goals simp_all [Value.truthy]
  · unfold patch_product
    rw [hp]
    simp [applySimpleFields, setField, parse_date, get_image_blob, htr]

/-- Witness for `claim9_falsy_category_id_skips_check`: `category_id`
`"abc"` fails coercion, the check against the Category table is skipped and
the product's reference is silently cleared to null, status 200. -/
theorem claim9_witness :
    patch_product 1 ⟨[("category_id", .str "abc")], none⟩
        ⟨[⟨1, .str "Bev", .null, none⟩],
          [⟨1, .str "Old", .null, .int 2, .int 1, .int 5, .int 3, none, none⟩], 2, 2, []⟩ =
      (⟨200, []⟩, ⟨[⟨1, .str "Bev", .null, none⟩],
        [⟨1, .str "Old", .null, .int 2, .null, .int 5, .int 3, none, none⟩], 2, 2, []⟩) := by
  have h := (claim9_falsy_category_id_skips_check
    ⟨[⟨1, .str "Bev", .null, none⟩],
      [⟨1, .str "Old", .null, .int 2, .int 1, .int 5, .int 3, none, none⟩], 2, 2, []⟩
    1 ⟨1, .str "Old", .null, .int 2, .int 1, .int 5, .int 3, none, none⟩
    (.str "abc") (by decide) (Or.inl (by decide))).2
  exact h.trans (by decide)

/-! ### Claim C10 -/

/-- Claim C10: PATCH assigns supplied `name`, `brand`, `stock_level` and
`min_stock_level` body values to the product verbatim — no integer coercion
or validation — so a non-numeric `stock_level` string is stored raw and the
request still answers 200; POST, in contrast, coerces `stock_level` through
`extract_int`, so the same non-numeric string falls back to the default 0. -/
theorem claim10_patch_verbatim_vs_post_coercion (db : DB) (pid : Nat) (p : Product)
    (nv bv sv mv : Value) (nm ps s : String) (k : Int)
    (hp : prodGetId db pid = some p) (hnv : nv.truthy = true) :
    (patch_product pid ⟨[("name", nv), ("brand", bv), ("stock_level", sv),
        ("min_stock_level", mv)], none⟩ db =
      (⟨200, []⟩, { db with products := db.products.map (fun q =>
        if q.id == pid then
          { p with name := nv, brand := bv, stock_level := sv, min_stock_level := mv }
        else q) })) ∧
    (nm ≠ "" → pyParseInt ps = some k → pyParseInt s = none → s ≠ "" →
      create_product ⟨[("name", .str nm), ("price", .str ps),
          ("stock_level", .str s)], none⟩ db =
        (⟨201, []⟩, { db with
          products := db.products ++ [⟨db.next_prod_id, .str nm, .null, .int k,
            .null, .int 0, .int 10, none, none⟩],
          next_prod_id := db.next_prod_id + 1 })) := by
  constructor
  · unfold patch_product
    rw [hp]
    simp [applySimpleFields, setField, extract_int, parse_date, get_image_blob, hnv]
  · intro hnm hps hs hse
    have hext : extract_int (.str ps) .null = .int k := by
      simp [extract_int, hps]
      intro he
      rw [he] at hps
      exact Option.noConfusion ((by decide : pyParseInt "" = none) ▸ hps)
    have hstock : extract_int (.str s) (.int 0) = .int 0 := by
      simp [extract_int, hs, hse]
    unfold create_product
    simp [hext, hstock, hnm, parse_date, get_image_blob, Value.truthy]

/-- Witness for `claim10_patch_verbatim_vs_post_coercion`: PATCH stores the
raw string `"abc"` as `stock_level` with status 200, while POST coerces the
same string to the default 0. -/
theorem claim10_witness :
    (patch_product 1 ⟨[("name", .str "New"), ("brand", .str "B"),
        ("stock_level", .str "abc"), ("min_stock_level", .str "xyz")], none⟩
        ⟨[], [⟨1, .str "Old", .null, .int 2, .null, .int 5, .int 3, none, none⟩],
          1, 2, []⟩ =
      (⟨200, []⟩, ⟨[], [⟨1, .str "New", .str "B", .int 2, .null, .str "abc",
        .str "xyz", none, none⟩], 1, 2, []⟩)) ∧
    (create_product ⟨[("name", .str "Milk"), ("price", .str "50"),
        ("stock_level", .str "abc")], none⟩
        ⟨[], [⟨1, .str "Old", .null, .int 2, .null, .int 5, .int 3, none, none⟩],
          1, 2, []⟩ =
      (⟨201, []⟩, ⟨[], [⟨1, .str "Old", .null, .int 2, .null, .int 5, .int 3,
        none, none⟩, ⟨2, .str "Milk", .null, .int 50, .null, .int 0, .int 10,
        none, none⟩], 1, 3, []⟩)) := by
  have h1 := claim10_patch_verbatim_vs_post_coercion
    ⟨[], [⟨1, .str "Old", .null, .int 2, .null, .int 5, .int 3, none, none⟩], 1, 2, []⟩
    1 ⟨1, .str "Old", .null, .int 2, .null, .int 5, .int 3, none, none⟩
    (.str "New") (.str "B") (.str "abc") (.str "xyz") "Milk" "50" "abc" 50
    (by decide) (by decide)
  exact ⟨h1.1.trans (by decide),
    (h1.2 (by decide) (by decide) (by decide) (by decide)).trans (by decide)⟩

/-! ### Claim C6 -/

theorem dictGet_eraseKey_self (d : Dict) (k : String) :
    dictGet (eraseKey d k) k = .null := by
  have : (eraseKey d k).find? (fun p => p.1 == k) = none := by
    rw [List.find?_eq_none]
    intro x hx
    have := (List.mem_filter.mp hx).2
    simpa using this
  simp [dictGet, this]

theorem dictGet_eraseKey_ne (d : Dict) (k k' : String) (h : k' ≠ k) :
    dictGet (eraseKey d k) k' = dictGet d k' := by
  induction d with
  | nil => rfl
  | cons x tl ih =>
    rcases x with ⟨a, v⟩
    simp only [eraseKey] at ih ⊢
    by_cases hak : a = k
    · have hb : (a != k) = false := by simp [hak]
      have hak' : a ≠ k' := fun he => h (he ▸ hak)
      simp [List.filter_cons, hb, hak', ih]
    · have hb : (a != k) = true := by simp [hak]
      by_cases hk' : a = k'
      · simp [List.filter_cons, hb, hk', h]
      · simp [List.filter_cons, hb, hk', ih]

theorem dictMem_eraseKey_self (d : Dict) (k : String) :
    dictMem (eraseKey d k) k = false := by
  induction d with
  | nil => rfl
  | cons x tl ih =>
    rcases x with ⟨a, v⟩
    simp only [eraseKey] at ih ⊢
    by_cases hak : a = k
    · have hb : (a != k) = false := by simp [hak]
      simp [List.filter_cons, hb, ih]
    · have hb : (a != k) = true := by simp [hak]
      simp [List.filter_cons, hb, hak, ih]

theorem dictMem_eraseKey_ne (d : Dict) (k k' : String) (h : k' ≠ k) :
    dictMem (eraseKey d k) k' = dictMem d k' := by
  induction d with
  | nil => rfl
  | cons x tl ih =>
    rcases x with ⟨a, v⟩
    simp only [eraseKey] at ih ⊢
    by_cases hak : a = k
    · have hb : (a != k) = false := by simp [hak]
      have hak' : a ≠ k' := fun he => h (he ▸ hak)
      simp [List.filter_cons, hb, hak', ih]
    · have hb : (a != k) = true := by simp [hak]
      by_cases hk' : a = k'
      · simp [List.filter_cons, hb, hk', h]
      · simp [List.filter_cons, hb, hk', ih]

theorem dictMem_of_get_ne_null (d : Dict) (k : String) (h : dictGet d k ≠ .null) :
    dictMem d k = true := by
  induction d with
  | nil => exact absurd rfl h
  | cons x tl ih =>
    rcases x with ⟨a, v⟩
    by_cases hak : a = k
    · simp [hak]
    · simp [hak] at h ⊢
      exact ih h

theorem get_image_blob_eraseExp (req : Request) :
    get_image_blob ⟨eraseKey req.data "expiration_date", req.image_file⟩ =
      get_image_blob req := by
  unfold get_image_blob
  rw [dictGet_eraseKey_ne req.data "expiration_date" "image_base64" (by decide)]

/-- `parse_date` on a string never raises: the three formats are tried in
order and the result of the first that matches is kept. -/
theorem parse_date_str_eq (s : String) :
    parse_date (Value.str s) = .ok (if s = "" then none else
      match strpDateOnly s with
      | some d => some d
      | none =>
        match strpDateTimeT s with
        | some d => some d
        | none => strpDateTimeSp s) := by
  by_cases hs : s = "" <;> simp [parse_date, hs]

/-- Claim C6: `parse_date` tries `YYYY-MM-DD`, `YYYY-MM-DDTHH:MM:SS` and
`YYYY-MM-DD HH:MM:SS` in that order and returns the date of the first
matching format; a string matching none of them (such as `2025-13-40`)
yields absent (`None`); and the response of every product mutation that
accepts an `expiration_date` string is exactly the response with that field
removed from the body — a bad date string never fails a request. -/
theorem claim6_parse_date_lenient (s : String) :
    (∀ d, strpDateOnly s = some d → parse_date (.str s) = .ok (some d)) ∧
    (∀ d, strpDateOnly s = none → strpDateTimeT s = some d →
      parse_date (.str s) = .ok (some d)) ∧
    (strpDateOnly s = none → strpDateTimeT s = none →
      parse_date (.str s) = .ok (strpDateTimeSp s)) ∧
    parse_date (.str "2025-13-40") = .ok none ∧
    (∀ (db : DB) (req : Request) (i : Nat),
      dictGet req.data "expiration_date" = .str s →
      (create_product req db).1 =
        (create_product ⟨eraseKey req.data "expiration_date", req.image_file⟩ db).1 ∧
      (replace_product i req db).1 =
        (replace_product i ⟨eraseKey req.data "expiration_date", req.image_file⟩ db).1 ∧
      (patch_product i req db).1 =
        (patch_product i ⟨eraseKey req.data "expiration_date", req.image_file⟩ db).1) := by
  have hempty : strpDateOnly "" = none := by decide
  refine ⟨?_, ?_, ?_, by rfl, ?_⟩
  · intro d hd
    have hs : s ≠ "" := fun he => by rw [he] at hd; exact Option.noConfusion (hempty ▸ hd)
    rw [parse_date_str_eq, if_neg hs, hd]
  · intro d h1 h2
    have hs : s ≠ "" := fun he => by
      rw [he] at h2
      exact Option.noConfusion ((by decide : strpDateTimeT "" = none) ▸ h2)
    rw [parse_date_str_eq, if_neg hs, h1, h2]
  · intro h1 h2
    by_cases hs : s = ""
    · rw [parse_date_str_eq, if_pos hs, hs]
      rfl
    · rw [parse_date_str_eq, if_neg hs, h1, h2]
  · intro db req i hexp
    have hm : dictMem req.data "expiration_date" = true :=
      dictMem_of_get_ne_null _ _ (by rw [hexp]; exact fun h => Value.noConfusion h)
    obtain ⟨o, ho⟩ : ∃ o, parse_date (Value.str s) = .ok o := by
      rw [parse_date_str_eq]
      exact ⟨_, rfl⟩
    have hnull : parse_date Value.null = .ok none := rfl
    have hge : ∀ k', k' ≠ "expiration_date" →
        dictGet (eraseKey req.data "expiration_date") k' = dictGet req.data k' :=
      fun k' h => dictGet_eraseKey_ne req.data "expiration_date" k' h
    have hme : ∀ k', k' ≠ "expiration_date" →
        dictMem (eraseKey req.data "expiration_date") k' = dictMem req.data k' :=
      fun k' h => dictMem_eraseKey_ne req.data "expiration_date" k' h
    refine ⟨?_, ?_, ?_⟩
    · simp only [create_product, hge "name" (by decide), hge "price" (by decide),
        hge "category_id" (by decide), hge "stock_level" (by decide),
        hge "min_stock_level" (by decide), hge "brand" (by decide),
        get_image_blob_eraseExp, dictGet_eraseKey_self, hexp, ho, hnull]
      repeat' split
      all_goals simp_all
    · simp only [replace_product, hge "name" (by decide), hge "price" (by decide),
        hge "category_id" (by decide), hge "stock_level" (by decide),
        hge "min_stock_level" (by decide), hge "brand" (by decide),
        hme "name" (by decide), hme "category_id" (by decide),
        get_image_blob_eraseExp, dictGet_eraseKey_self, hexp, ho, hnull]
      repeat' split
      all_goals simp_all
    · simp only [patch_product, hge "name" (by decide), hge "price" (by decide),
        hge "category_id" (by decide),
        hme "name" (by decide), hme "price" (by decide), hme "category_id" (by decide),
        hm, dictMem_eraseKey_self, get_image_blob_eraseExp, dictGet_eraseKey_self,
        hexp, ho, hnull]
      repeat' split
      all_goals simp_all

/-- Witness for `claim6_parse_date_lenient` at the spec's example string:
`2025-13-40` matches no format, parses to absent, and a POST carrying it
has exactly the response of the same POST without it. -/
theorem claim6_witness :
    parse_date (.str "2025-13-40") = .ok none ∧
    (create_product ⟨[("name", .str "Milk"), ("price", .str "50"),
        ("expiration_date", .str "2025-13-40")], none⟩ ⟨[], [], 1, 1, []⟩).1 =
      (create_product ⟨eraseKey [("name", .str "Milk"), ("price", .str "50"),
        ("expiration_date", .str "2025-13-40")] "expiration_date", none⟩
        ⟨[], [], 1, 1, []⟩).1 := by
  have h := claim6_parse_date_lenient "2025-13-40"
  exact ⟨h.2.2.2.1, (h.2.2.2.2 ⟨[], [], 1, 1, []⟩
    ⟨[("name", .str "Milk"), ("price", .str "50"),
      ("expiration_date", .str "2025-13-40")], none⟩ 1 (by decide)).1⟩

end StockaDoodle
